import Mathlib

/-!
Verification of the project-ledger core of the "Suivi de chantier" service
(`src/main.py`): the referential data model Project → Task → TimeLog/Cost,
the cascading project deletion with attachment-file cleanup, the
attachment lifecycle of cost receipts, and the KPI (variance) computation.

The embedding mirrors the Python/SQLModel source:
* SQL rows become Lean structures; the database session becomes an explicit
  `Store` of row lists plus autoincrement counters.
* The attachment directory becomes a filesystem model `Fs`: the set of
  present file names, plus the set of names whose removal raises a
  permission error (modelling an exogenous OS fault; `os.remove` on them
  raises `PermissionError`, on an absent name raises `FileNotFoundError`).
* Python floats (hours, amounts, budgets) are idealised as rationals.
* `HTTPException` raising becomes `Except Err`; a handler that raises
  leaves the database unchanged (the session is closed without commit),
  while filesystem side effects performed before the raise persist, so
  fallible handlers return the (possibly modified) `Fs` alongside the
  `Except` result.
-/

namespace Chantier

/-- A calendar date, abstracted to a day ordinal. -/
abbrev Date := Int

/-- Fields of `ProjectBase` in the source. -/
structure ProjectBase where
  name : String
  client : Option String := none
  start_date : Date
  end_date : Option Date := none
  budget_hours : Rat := 0
  budget_cost : Rat := 0
  description : Option String := none
deriving DecidableEq

/-- A persisted `Project` row: base fields plus the assigned primary key. -/
structure Project extends ProjectBase where
  id : Nat
deriving DecidableEq

/-- Fields of `TaskBase` in the source. -/
structure TaskBase where
  project_id : Nat
  name : String
  planned_hours : Rat := 0
  planned_cost : Rat := 0
  start_date : Option Date := none
  end_date : Option Date := none
deriving DecidableEq

/-- A persisted `Task` row. -/
structure Task extends TaskBase where
  id : Nat
deriving DecidableEq

/-- Fields of `TimeLogBase` in the source. -/
structure TimeLogBase where
  project_id : Nat
  task_id : Nat
  work_date : Date
  hours : Rat
  worker : Option String := none
  note : Option String := none
deriving DecidableEq

/-- A persisted `TimeLog` row: base fields plus key and creation stamp. -/
structure TimeLog extends TimeLogBase where
  id : Nat
  created_at : Int
deriving DecidableEq

/-- Fields of `CostBase` in the source (the JSON create endpoint accepts
`attachment_filename` directly, so it is part of the payload). -/
structure CostBase where
  project_id : Nat
  task_id : Nat
  cost_date : Date
  amount : Rat
  category : String
  vendor : Option String := none
  note : Option String := none
  attachment_filename : Option String := none
deriving DecidableEq

/-- A persisted `Cost` row. -/
structure Cost extends CostBase where
  id : Nat
  created_at : Int
deriving DecidableEq

/-- The relational store: the four row tables (in insertion order) and the
autoincrement counters for primary keys. -/
structure Store where
  projects : List Project := []
  tasks : List Task := []
  timelogs : List TimeLog := []
  costs : List Cost := []
  nextProjectId : Nat := 1
  nextTaskId : Nat := 1
  nextTimeLogId : Nat := 1
  nextCostId : Nat := 1
deriving DecidableEq

/-- The error outcomes the handlers can raise. The first four are the
`HTTPException`s of the source; the `os` items are the exceptions
`os.remove` can raise; `storeIOError` models a failing database commit. -/
inductive Err where
  | projectNotFound
  | relatedProjectNotFound
  | relatedTaskNotFound
  | unsupportedMediaType
  | osFileNotFound
  | osPermissionError
  | storeIOError
deriving DecidableEq

/-- The attachment directory: names of the files present, and names whose
removal the OS refuses with a permission error. -/
structure Fs where
  files : List String := []
  locked : List String := []
deriving DecidableEq

/-- Embeds `session.get(Project, id)`: primary-key lookup. -/
def getProject (db : Store) (pid : Nat) : Option Project :=
  db.projects.find? (fun p => p.id == pid)

/-- Embeds `session.get(Task, id)`: primary-key lookup. -/
def getTask (db : Store) (tid : Nat) : Option Task :=
  db.tasks.find? (fun t => t.id == tid)

/-- Embeds `create_project`: insert unconditionally, assigning a fresh id. -/
def create_project (db : Store) (payload : ProjectBase) : Store × Project :=
  let p : Project := { toProjectBase := payload, id := db.nextProjectId }
  ({ db with projects := db.projects ++ [p],
             nextProjectId := db.nextProjectId + 1 }, p)

/-- Embeds `list_projects`. -/
def list_projects (db : Store) : List Project := db.projects

/-- Embeds `list_tasks`: all tasks whose `project_id` matches, in insertion order. -/
def list_tasks (db : Store) (pid : Nat) : List Task :=
  db.tasks.filter (fun t => t.project_id == pid)

/-- Embeds `list_time_logs`. -/
def list_time_logs (db : Store) (pid : Nat) : List TimeLog :=
  db.timelogs.filter (fun tl => tl.project_id == pid)

/-- Embeds `list_costs`. -/
def list_costs (db : Store) (pid : Nat) : List Cost :=
  db.costs.filter (fun c => c.project_id == pid)

/-- Embeds `os.remove` on the attachment directory: removing an absent name raises
`FileNotFoundError`; removing a present but locked name raises
`PermissionError`; otherwise the file disappears. -/
def os_remove (fs : Fs) (name : String) : Except Err Fs :=
  if name ∈ fs.files then
    if name ∈ fs.locked then .error .osPermissionError
    else .ok { fs with files := fs.files.filter (fun g => g != name) }
  else .error .osFileNotFound

/-- The `try: os.remove(...) except FileNotFoundError: pass` block of
`delete_project`: a missing file is swallowed, any other failure
propagates. -/
def tryRemoveAttachment (fs : Fs) (name : String) : Except Err Fs :=
  match os_remove fs name with
  | .error .osFileNotFound => .ok fs
  | .error e => .error e
  | .ok fs1 => .ok fs1

/-- The per-cost attachment cleanup loop of `delete_project`: for each cost
in order, if `attachment_filename` is truthy (present and non-empty, the
Python `if c.attachment_filename:` test), attempt the guarded removal;
a raised error aborts the loop, keeping the removals already performed. -/
def deleteCostAttachments (fs : Fs) : List Cost → Except Err Unit × Fs
  | [] => (.ok (), fs)
  | c :: rest =>
    match c.attachment_filename with
    | some f =>
      if f = "" then deleteCostAttachments fs rest
      else
        match tryRemoveAttachment fs f with
        | .ok fs1 => deleteCostAttachments fs1 rest
        | .error e => (.error e, fs)
    | none => deleteCostAttachments fs rest

/-- The store once the queued row deletions of the cascade are committed:
every time log, cost and task whose `project_id` matches is gone, and so
is the project row itself. -/
def cascadeRemaining (db : Store) (pid : Nat) : Store :=
  { db with
    timelogs := db.timelogs.filter (fun tl => !(tl.project_id == pid)),
    costs := db.costs.filter (fun c => !(c.project_id == pid)),
    tasks := db.tasks.filter (fun t => !(t.project_id == pid)),
    projects := db.projects.filter (fun p => !(p.id == pid)) }

/-- Embeds `delete_project`: resolve the project (404 if absent), queue deletion of
its time logs, walk its costs removing attachment files and queueing row
deletions, queue deletion of its tasks and of the project row, then commit.
Row deletions only take effect at the single final commit, so an exception
raised while removing an attachment file aborts with the database
unchanged; file removals already performed persist. -/
def delete_project (db : Store) (fs : Fs) (pid : Nat) :
    Except Err Store × Fs :=
  match getProject db pid with
  | none => (.error .projectNotFound, fs)
  | some _ =>
    match deleteCostAttachments fs (db.costs.filter (fun c => c.project_id == pid)) with
    | (.error e, fs1) => (.error e, fs1)
    | (.ok _, fs1) => (.ok (cascadeRemaining db pid), fs1)

/-- Embeds `create_task`: 404 `Related project not found` unless the referenced
project exists, else insert with a fresh id. -/
def create_task (db : Store) (payload : TaskBase) : Except Err (Store × Task) :=
  match getProject db payload.project_id with
  | none => .error .relatedProjectNotFound
  | some _ =>
    let t : Task := { toTaskBase := payload, id := db.nextTaskId }
    .ok ({ db with tasks := db.tasks ++ [t], nextTaskId := db.nextTaskId + 1 }, t)

/-- Embeds `create_time_log`: check the referenced project, then the referenced
task; on success insert with a fresh id and the current timestamp. -/
def create_time_log (db : Store) (now : Int) (payload : TimeLogBase) :
    Except Err (Store × TimeLog) :=
  match getProject db payload.project_id with
  | none => .error .relatedProjectNotFound
  | some _ =>
    match getTask db payload.task_id with
    | none => .error .relatedTaskNotFound
    | some _ =>
      let tl : TimeLog :=
        { toTimeLogBase := payload, id := db.nextTimeLogId, created_at := now }
      .ok ({ db with timelogs := db.timelogs ++ [tl],
                     nextTimeLogId := db.nextTimeLogId + 1 }, tl)

/-- Embeds `create_cost` (JSON endpoint): check project, then task, then insert. -/
def create_cost (db : Store) (now : Int) (payload : CostBase) :
    Except Err (Store × Cost) :=
  match getProject db payload.project_id with
  | none => .error .relatedProjectNotFound
  | some _ =>
    match getTask db payload.task_id with
    | none => .error .relatedTaskNotFound
    | some _ =>
      let c : Cost :=
        { toCostBase := payload, id := db.nextCostId, created_at := now }
      .ok ({ db with costs := db.costs ++ [c],
                     nextCostId := db.nextCostId + 1 }, c)

/-- An uploaded multipart file: declared media type and raw bytes. -/
structure UploadFile where
  content_type : String
  content : List Nat
deriving DecidableEq

/-- The deterministic attachment name
`cost_{project_id}_{task_id}_{timestamp}.pdf`. -/
def attachmentName (pid tid : Nat) (now : Int) : String :=
  s!"cost_{pid}_{tid}_{now}.pdf"

/-- Embeds `open(dest, "wb")` followed by `shutil.copyfileobj`: the named file now
exists (overwriting any previous file of that name). -/
def writeFile (fs : Fs) (name : String) : Fs :=
  { fs with files := if name ∈ fs.files then fs.files else fs.files ++ [name] }

/-- The file-handling block of `create_cost_with_file` (`if file: ...`):
no upload keeps the directory unchanged and records no filename; an upload
whose declared media type is not exactly `application/pdf` raises 415;
otherwise the content is written under the deterministic name, which is
recorded. -/
def attachStep (fs : Fs) (pid tid : Nat) (now : Int)
    (file : Option UploadFile) : Except Err (Option String × Fs) :=
  match file with
  | some f =>
    if f.content_type != "application/pdf" then .error .unsupportedMediaType
    else
      let base := attachmentName pid tid now
      .ok (some base, writeFile fs base)
  | none => .ok (none, fs)

/-- Embeds `create_cost_with_file` (multipart endpoint): check project, then task;
if a file was uploaded, reject any declared media type other than
`application/pdf`, otherwise write it to the attachment directory under
the deterministic name; finally insert the cost row. `commitOk` models
whether the database insert/commit succeeds: the file write happens first
and survives a failed commit (the tolerated orphan of the spec). -/
def create_cost_with_file (db : Store) (fs : Fs) (now : Int)
    (project_id task_id : Nat) (cost_date : Date) (amount : Rat)
    (category : String) (vendor note : Option String)
    (file : Option UploadFile) (commitOk : Bool) :
    Except Err (Store × Cost) × Fs :=
  match getProject db project_id with
  | none => (.error .relatedProjectNotFound, fs)
  | some _ =>
    match getTask db task_id with
    | none => (.error .relatedTaskNotFound, fs)
    | some _ =>
      match attachStep fs project_id task_id now file with
      | .error e => (.error e, fs)
      | .ok (attachment_filename, fs1) =>
        let c : Cost :=
          { project_id := project_id, task_id := task_id,
            cost_date := cost_date, amount := amount, category := category,
            vendor := vendor, note := note,
            attachment_filename := attachment_filename,
            id := db.nextCostId, created_at := now }
        if commitOk then
          (.ok ({ db with costs := db.costs ++ [c],
                          nextCostId := db.nextCostId + 1 }, c), fs1)
        else (.error .storeIOError, fs1)

/-- The KPI response record of the source. -/
structure KPIResponse where
  project_id : Nat
  total_hours : Rat
  total_cost : Rat
  budget_hours : Rat
  budget_cost : Rat
  hours_variance : Rat
  cost_variance : Rat
deriving DecidableEq

/-- Embeds `coalesce(sum(TimeLog.hours), 0.0) where project_id = pid`. -/
def sum_hours (db : Store) (pid : Nat) : Rat :=
  ((db.timelogs.filter (fun tl => tl.project_id == pid)).map (fun tl => tl.hours)).sum

/-- Embeds `coalesce(sum(Cost.amount), 0.0) where project_id = pid`. -/
def sum_amount (db : Store) (pid : Nat) : Rat :=
  ((db.costs.filter (fun c => c.project_id == pid)).map (fun c => c.amount)).sum

/-- Embeds `project_kpi`: 404 if the project does not exist, otherwise the actual
totals, the echoed budgets, and actual-minus-budget variances. -/
def project_kpi (db : Store) (pid : Nat) : Except Err KPIResponse :=
  match getProject db pid with
  | none => .error .projectNotFound
  | some project =>
    .ok { project_id := pid,
          total_hours := sum_hours db pid,
          total_cost := sum_amount db pid,
          budget_hours := project.budget_hours,
          budget_cost := project.budget_cost,
          hours_variance := sum_hours db pid - project.budget_hours,
          cost_variance := sum_amount db pid - project.budget_cost }
/-! ### Concrete sample data (the §8 scenario of the spec) -/

/-- Sample project 1: budgets 120 h and 15000. -/
def exP1 : Project :=
  { id := 1, name := "Chantier A", client := some "Client A", start_date := 0,
    budget_hours := 120, budget_cost := 15000 }

/-- Sample project 2, used to exhibit the cross-project gap. -/
def exP2 : Project := { id := 2, name := "Chantier B", start_date := 0 }

/-- Sample task 1, belonging to project 1. -/
def exT1 : Task := { id := 1, project_id := 1, name := "Gros oeuvre" }

/-- Sample task 10, belonging to project 2. -/
def exT10 : Task := { id := 10, project_id := 2, name := "Second oeuvre" }

/-- Sample time log: 5 hours on task 1 of project 1. -/
def exTL : TimeLog :=
  { id := 1, project_id := 1, task_id := 1, work_date := 0, hours := 5,
    created_at := 0 }

/-- Sample cost: 2500 on task 1 of project 1, with receipt `r.pdf`. -/
def exC : Cost :=
  { id := 1, project_id := 1, task_id := 1, cost_date := 0, amount := 2500,
    category := "materiel", attachment_filename := some "r.pdf", created_at := 0 }

/-- Sample store holding the rows above. -/
def exDb : Store :=
  { projects := [exP1, exP2], tasks := [exT1, exT10], timelogs := [exTL],
    costs := [exC], nextProjectId := 3, nextTaskId := 11, nextTimeLogId := 2,
    nextCostId := 2 }

/-- Attachment directory holding `r.pdf`, fully removable. -/
def exFs : Fs := { files := ["r.pdf"] }

/-- Attachment directory where removing `r.pdf` raises a permission error. -/
def exFsLocked : Fs := { files := ["r.pdf"], locked := ["r.pdf"] }

/-- A PDF upload. -/
def exPdf : UploadFile := { content_type := "application/pdf", content := [37, 80] }

/-- An upload whose declared media type is not PDF. -/
def exPng : UploadFile := { content_type := "image/png", content := [137, 80] }

/-! ### Helper lemmas -/

theorem filter_not_filter {α : Type} (p : α → Bool) (l : List α) :
    (l.filter (fun a => !(p a))).filter p = [] := by
  induction l with
  | nil => rfl
  | cons a t ih => cases h : p a <;> simp [List.filter_cons, h, ih]

theorem find?_filter_not {α : Type} (p : α → Bool) (l : List α) :
    (l.filter (fun a => !(p a))).find? p = none := by
  rw [List.find?_eq_none]
  intro x hx
  have hmem := List.mem_filter.mp hx
  simp at hmem
  simp [hmem.2]

theorem os_remove_ok {fs fs' : Fs} {name : String}
    (h : os_remove fs name = .ok fs') :
    name ∉ fs'.files ∧ (∀ g ∈ fs'.files, g ∈ fs.files) ∧ fs'.locked = fs.locked := by
  unfold os_remove at h
  by_cases h1 : name ∈ fs.files
  · rw [if_pos h1] at h
    by_cases h2 : name ∈ fs.locked
    · rw [if_pos h2] at h; cases h
    · rw [if_neg h2] at h
      cases h
      refine ⟨?_, ?_, rfl⟩
      · simp [List.mem_filter]
      · intro g hg; exact List.mem_of_mem_filter hg
  · rw [if_neg h1] at h; cases h

theorem tryRemoveAttachment_gone {fs fs' : Fs} {name : String}
    (h : tryRemoveAttachment fs name = .ok fs') :
    name ∉ fs'.files ∨ (fs' = fs ∧ name ∉ fs.files) := by
  unfold tryRemoveAttachment at h
  cases hr : os_remove fs name with
  | ok fs1 =>
    rw [hr] at h; cases h
    exact Or.inl (os_remove_ok hr).1
  | error e =>
    rw [hr] at h
    cases e <;> cases h
    refine Or.inr ⟨rfl, ?_⟩
    unfold os_remove at hr
    by_cases h1 : name ∈ fs.files
    · rw [if_pos h1] at hr
      by_cases h2 : name ∈ fs.locked
      · rw [if_pos h2] at hr; cases hr
      · rw [if_neg h2] at hr; cases hr
    · exact h1

theorem tryRemoveAttachment_unlocked {fs : Fs} {name : String}
    (h : name ∉ fs.locked) :
    ∃ fs1, tryRemoveAttachment fs name = .ok fs1 ∧ fs1.locked = fs.locked := by
  unfold tryRemoveAttachment os_remove
  by_cases h1 : name ∈ fs.files
  · rw [if_pos h1, if_neg h]
    exact ⟨_, rfl, rfl⟩
  · rw [if_neg h1]
    exact ⟨fs, rfl, rfl⟩

theorem tryRemoveAttachment_subset {fs fs' : Fs} {name : String}
    (h : tryRemoveAttachment fs name = .ok fs') :
    (∀ g ∈ fs'.files, g ∈ fs.files) ∧ fs'.locked = fs.locked := by
  unfold tryRemoveAttachment at h
  cases hr : os_remove fs name with
  | ok fs1 =>
    rw [hr] at h; cases h
    exact ⟨(os_remove_ok hr).2.1, (os_remove_ok hr).2.2⟩
  | error e =>
    rw [hr] at h
    cases e <;> simp_all

theorem deleteCostAttachments_ok :
    ∀ (l : List Cost) (fs fs' : Fs) (u : Unit),
      deleteCostAttachments fs l = (.ok u, fs') →
      (∀ g ∈ fs'.files, g ∈ fs.files) ∧ fs'.locked = fs.locked ∧
      ∀ c ∈ l, ∀ f, c.attachment_filename = some f → f ≠ "" → f ∉ fs'.files := by
  intro l
  induction l with
  | nil =>
    intro fs fs' u h
    unfold deleteCostAttachments at h
    cases h
    exact ⟨fun g hg => hg, rfl, by simp⟩
  | cons c rest ih =>
    intro fs fs' u h
    unfold deleteCostAttachments at h
    cases hatt : c.attachment_filename with
    | none =>
      rw [hatt] at h
      obtain ⟨hsub, hlock, hrest⟩ := ih fs fs' u h
      refine ⟨hsub, hlock, ?_⟩
      intro c' hc' f hf hne
      rcases List.mem_cons.mp hc' with rfl | hmem
      · rw [hatt] at hf; cases hf
      · exact hrest c' hmem f hf hne
    | some f0 =>
      rw [hatt] at h
      replace h : (if f0 = "" then deleteCostAttachments fs rest
          else match tryRemoveAttachment fs f0 with
            | .ok fs1 => deleteCostAttachments fs1 rest
            | .error e => (.error e, fs)) = (.ok u, fs') := h
      by_cases hf0 : f0 = ""
      · rw [if_pos hf0] at h
        obtain ⟨hsub, hlock, hrest⟩ := ih fs fs' u h
        refine ⟨hsub, hlock, ?_⟩
        intro c' hc' f hf hne
        rcases List.mem_cons.mp hc' with rfl | hmem
        · rw [hatt] at hf
          cases hf
          exact absurd hf0 hne
        · exact hrest c' hmem f hf hne
      · rw [if_neg hf0] at h
        cases htr : tryRemoveAttachment fs f0 with
        | ok fs1 =>
          rw [htr] at h
          obtain ⟨hsub, hlock, hrest⟩ := ih fs1 fs' u h
          obtain ⟨hsub1, hlock1⟩ := tryRemoveAttachment_subset htr
          refine ⟨fun g hg => hsub1 g (hsub g hg), hlock.trans hlock1, ?_⟩
          intro c' hc' f hf hne
          rcases List.mem_cons.mp hc' with rfl | hmem
          · rw [hatt] at hf
            cases hf
            intro hmemf
            rcases tryRemoveAttachment_gone htr with hgone | ⟨heq, habs⟩
            · exact hgone (hsub _ hmemf)
            · exact habs (heq ▸ hsub _ hmemf)
          · exact hrest c' hmem f hf hne
        | error e =>
          rw [htr] at h
          cases h

theorem deleteCostAttachments_total :
    ∀ (l : List Cost) (fs : Fs), fs.locked = [] →
      ∃ fs', deleteCostAttachments fs l = (.ok (), fs') := by
  intro l
  induction l with
  | nil => intro fs _; exact ⟨fs, rfl⟩
  | cons c rest ih =>
    intro fs hl
    unfold deleteCostAttachments
    cases hatt : c.attachment_filename with
    | none => exact ih fs hl
    | some f0 =>
      show ∃ fs', (if f0 = "" then deleteCostAttachments fs rest
          else match tryRemoveAttachment fs f0 with
            | .ok fs1 => deleteCostAttachments fs1 rest
            | .error e => (.error e, fs)) = (.ok (), fs')
      by_cases hf0 : f0 = ""
      · rw [if_pos hf0]; exact ih fs hl
      · rw [if_neg hf0]
        have hnl : f0 ∉ fs.locked := by rw [hl]; simp
        obtain ⟨fs1, htr, hlk⟩ := tryRemoveAttachment_unlocked hnl
        rw [htr]
        exact ih fs1 (hlk.trans hl)

theorem mem_writeFile_self (fs : Fs) (name : String) :
    name ∈ (writeFile fs name).files := by
  unfold writeFile
  by_cases h : name ∈ fs.files
  · simp [h]
  · simp [h]

theorem attachStep_ok {fs : Fs} {pid tid : Nat} {now : Int}
    {file : Option UploadFile} {att : Option String} {fs1 : Fs}
    (h : attachStep fs pid tid now file = .ok (att, fs1)) :
    (att = none ∧ fs1 = fs) ∨
    (att = some (attachmentName pid tid now) ∧
      fs1 = writeFile fs (attachmentName pid tid now)) := by
  unfold attachStep at h
  cases file with
  | none =>
    cases h
    exact Or.inl ⟨rfl, rfl⟩
  | some f =>
    replace h : (if (f.content_type != "application/pdf") = true
        then (Except.error Err.unsupportedMediaType : Except Err (Option String × Fs))
        else .ok (some (attachmentName pid tid now),
          writeFile fs (attachmentName pid tid now))) = .ok (att, fs1) := h
    by_cases hct : (f.content_type != "application/pdf") = true
    · rw [if_pos hct] at h; cases h
    · rw [if_neg hct] at h
      cases h
      exact Or.inr ⟨rfl, rfl⟩

/-! ### Claim theorems -/

/-- C1: deleting an existing project (with a fault-free attachment
directory) succeeds in one committed step, removing every time log, cost
and task row whose `project_id` matches together with the project row, and
removing the attachment file of every deleted cost that names one;
afterwards the per-project task, time-log and cost listings are empty and
the project itself no longer resolves. -/
theorem c1_delete_project_cascade (db : Store) (fs : Fs) (pid : Nat)
    (p : Project) (hp : getProject db pid = some p) (hfs : fs.locked = []) :
    ∃ db' fs', delete_project db fs pid = (.ok db', fs') ∧
      list_tasks db' pid = [] ∧ list_time_logs db' pid = [] ∧
      list_costs db' pid = [] ∧ getProject db' pid = none ∧
      ∀ c ∈ db.costs, c.project_id = pid →
        ∀ f, c.attachment_filename = some f → f ≠ "" → f ∉ fs'.files := by
  obtain ⟨fs', hdel⟩ := deleteCostAttachments_total
    (db.costs.filter (fun c => c.project_id == pid)) fs hfs
  refine ⟨cascadeRemaining db pid, fs', ?_, ?_, ?_, ?_, ?_, ?_⟩
  · unfold delete_project
    rw [hp, hdel]
  · exact filter_not_filter _ _
  · exact filter_not_filter _ _
  · exact filter_not_filter _ _
  · exact find?_filter_not _ _
  · intro c hc hcp f hf hne
    have hmem : c ∈ db.costs.filter (fun c => c.project_id == pid) :=
      List.mem_filter.mpr ⟨hc, by simp [hcp]⟩
    exact (deleteCostAttachments_ok _ fs fs' () hdel).2.2 c hmem f hf hne

/-- C1 witness: deleting sample project 1 with its receipt present removes
the rows, the listings become empty, and `r.pdf` is gone. -/
theorem c1_witness :
    getProject exDb 1 = some exP1 ∧ exFs.locked = [] ∧
    (∃ db' fs', delete_project exDb exFs 1 = (.ok db', fs') ∧
      list_tasks db' 1 = [] ∧ list_time_logs db' 1 = [] ∧
      list_costs db' 1 = [] ∧ getProject db' 1 = none ∧
      ∀ c ∈ exDb.costs, c.project_id = 1 →
        ∀ f, c.attachment_filename = some f → f ≠ "" → f ∉ fs'.files) :=
  ⟨rfl, rfl, c1_delete_project_cascade exDb exFs 1 exP1 rfl rfl⟩

/-- C2: `project_kpi` fails with `NotFound(Project)` when the project does
not resolve; otherwise it returns the hour and amount totals over the
matching time logs and costs, the echoed budgets, and actual-minus-budget
variances; with no matching time logs and costs the totals are 0 and the
variances are the negated budgets. -/
theorem c2_project_kpi_contract (db : Store) (pid : Nat) :
    (getProject db pid = none → project_kpi db pid = .error .projectNotFound) ∧
    (∀ p, getProject db pid = some p →
      project_kpi db pid = .ok
        { project_id := pid,
          total_hours := ((list_time_logs db pid).map (fun tl => tl.hours)).sum,
          total_cost := ((list_costs db pid).map (fun c => c.amount)).sum,
          budget_hours := p.budget_hours,
          budget_cost := p.budget_cost,
          hours_variance :=
            ((list_time_logs db pid).map (fun tl => tl.hours)).sum - p.budget_hours,
          cost_variance :=
            ((list_costs db pid).map (fun c => c.amount)).sum - p.budget_cost }) ∧
    (∀ p, getProject db pid = some p → list_time_logs db pid = [] →
      list_costs db pid = [] →
      project_kpi db pid = .ok
        { project_id := pid, total_hours := 0, total_cost := 0,
          budget_hours := p.budget_hours, budget_cost := p.budget_cost,
          hours_variance := -p.budget_hours,
          cost_variance := -p.budget_cost }) := by
  refine ⟨?_, ?_, ?_⟩
  · intro h; unfold project_kpi; rw [h]
  · intro p hp; unfold project_kpi; rw [hp]; rfl
  · intro p hp h1 h2
    unfold project_kpi
    rw [hp]
    unfold sum_hours sum_amount
    unfold list_time_logs at h1
    unfold list_costs at h2
    rw [h1, h2]
    simp

/-- C2 witness: the §8 scenario: project 1 has one 5-hour time log and one
2500 cost against budgets 120 and 15000. -/
theorem c2_witness :
    getProject exDb 1 = some exP1 ∧
    project_kpi exDb 1 = .ok
      { project_id := 1,
        total_hours := ((list_time_logs exDb 1).map (fun tl => tl.hours)).sum,
        total_cost := ((list_costs exDb 1).map (fun c => c.amount)).sum,
        budget_hours := exP1.budget_hours,
        budget_cost := exP1.budget_cost,
        hours_variance :=
          ((list_time_logs exDb 1).map (fun tl => tl.hours)).sum - exP1.budget_hours,
        cost_variance :=
          ((list_costs exDb 1).map (fun c => c.amount)).sum - exP1.budget_cost } :=
  ⟨rfl, (c2_project_kpi_contract exDb 1).2.1 exP1 rfl⟩

/-- A task payload naming a project id that does not exist in `exDb`. -/
def exTaskBad : TaskBase := { project_id := 99, name := "orphan" }

/-- C5: creating a task whose `project_id` does not resolve fails with
`ReferenceNotFound(Project)`; the error outcome carries no store, so
nothing is persisted. -/
theorem c5_create_task_missing_project (db : Store) (payload : TaskBase)
    (h : getProject db payload.project_id = none) :
    create_task db payload = .error .relatedProjectNotFound := by
  unfold create_task; rw [h]

/-- C5 witness: project 99 does not exist in the sample store. -/
theorem c5_witness :
    getProject exDb 99 = none ∧
    create_task exDb exTaskBad = .error .relatedProjectNotFound :=
  ⟨rfl, c5_create_task_missing_project exDb exTaskBad rfl⟩

/-- C3 counterexample: with the sample ledger and the receipt `r.pdf`
locked (its removal raises a permission error), `delete_project` does not
swallow the failure and complete the cascade: it aborts, returning the
permission error, with no row deleted. -/
theorem c3_counterexample :
    delete_project exDb exFsLocked 1 = (.error .osPermissionError, exFsLocked) := rfl

/-- C3 amended: during the cascade only the missing-file failure of an
attachment removal is swallowed (silently — nothing is logged); any other
removal failure, such as a permission error, propagates out of
`delete_project` and aborts the cascade before the commit, so the error
outcome carries no store and no row deletion takes effect. -/
theorem c3_only_missing_file_swallowed (db : Store) (fs : Fs) (pid : Nat)
    (p : Project) (hp : getProject db pid = some p) :
    (∀ name, os_remove fs name = .error .osFileNotFound →
      tryRemoveAttachment fs name = .ok fs) ∧
    (∀ name e, os_remove fs name = .error e → e ≠ .osFileNotFound →
      tryRemoveAttachment fs name = .error e) ∧
    (∀ e fs1,
      deleteCostAttachments fs (db.costs.filter (fun c => c.project_id == pid)) =
        (.error e, fs1) →
      delete_project db fs pid = (.error e, fs1)) := by
  refine ⟨?_, ?_, ?_⟩
  · intro name h; unfold tryRemoveAttachment; rw [h]
  · intro name e h hne
    unfold tryRemoveAttachment
    rw [h]
    cases e <;> simp_all
  · intro e fs1 h
    unfold delete_project
    rw [hp, h]

/-- C3 amended witness: on the sample ledger with `r.pdf` locked, the
permission error propagates out of the cascade. -/
theorem c3_witness :
    getProject exDb 1 = some exP1 ∧
    deleteCostAttachments exFsLocked
        (exDb.costs.filter (fun c => c.project_id == 1)) =
      (.error .osPermissionError, exFsLocked) ∧
    delete_project exDb exFsLocked 1 = (.error .osPermissionError, exFsLocked) :=
  ⟨rfl, rfl,
    (c3_only_missing_file_swallowed exDb exFsLocked 1 exP1 rfl).2.2
      .osPermissionError exFsLocked rfl⟩

/-- C4: attachment deletion is idempotent: deleting an already-absent file
is a no-op that succeeds rather than raising, and after a successful
deletion a second request for the same name also succeeds as a no-op, so a
missing file never aborts a cascade. -/
theorem c4_delete_attachment_idempotent (fs : Fs) (name : String) :
    (name ∉ fs.files → tryRemoveAttachment fs name = .ok fs) ∧
    (name ∉ fs.locked → ∃ fs1, tryRemoveAttachment fs name = .ok fs1 ∧
      tryRemoveAttachment fs1 name = .ok fs1) := by
  constructor
  · intro h
    unfold tryRemoveAttachment os_remove
    rw [if_neg h]
  · intro h
    obtain ⟨fs1, htr, _⟩ := tryRemoveAttachment_unlocked h
    refine ⟨fs1, htr, ?_⟩
    rcases tryRemoveAttachment_gone htr with hgone | ⟨heq, habs⟩
    · unfold tryRemoveAttachment os_remove
      rw [if_neg hgone]
    · subst heq
      unfold tryRemoveAttachment os_remove
      rw [if_neg habs]

/-- C4 witness: deleting the absent `q.pdf` succeeds as a no-op, and
deleting the present `r.pdf` twice succeeds both times. -/
theorem c4_witness :
    (("q.pdf" : String) ∉ exFs.files ∧
      tryRemoveAttachment exFs "q.pdf" = .ok exFs) ∧
    (("r.pdf" : String) ∉ exFs.locked ∧ ∃ fs1,
      tryRemoveAttachment exFs "r.pdf" = .ok fs1 ∧
      tryRemoveAttachment fs1 "r.pdf" = .ok fs1) :=
  ⟨⟨by decide, (c4_delete_attachment_idempotent exFs "q.pdf").1 (by decide)⟩,
   ⟨by decide, (c4_delete_attachment_idempotent exFs "r.pdf").2 (by decide)⟩⟩

/-- C6: `create_time_log`, `create_cost` and `create_cost_with_file` check
the referenced project before the referenced task: a missing project gives
`ReferenceNotFound(Project)` regardless of the task, a present project
with a missing task gives `ReferenceNotFound(Task)`, and either error
outcome carries no store (and, for the multipart endpoint, returns the
attachment directory unchanged), so no row is inserted. -/
theorem c6_reference_check_order (db : Store) (fs : Fs) (now : Int)
    (tlp : TimeLogBase) (cp : CostBase) (pid tid : Nat) (cd : Date)
    (amt : Rat) (cat : String) (v n : Option String)
    (file : Option UploadFile) (ck : Bool) :
    (getProject db tlp.project_id = none →
      create_time_log db now tlp = .error .relatedProjectNotFound) ∧
    (∀ p, getProject db tlp.project_id = some p → getTask db tlp.task_id = none →
      create_time_log db now tlp = .error .relatedTaskNotFound) ∧
    (getProject db cp.project_id = none →
      create_cost db now cp = .error .relatedProjectNotFound) ∧
    (∀ p, getProject db cp.project_id = some p → getTask db cp.task_id = none →
      create_cost db now cp = .error .relatedTaskNotFound) ∧
    (getProject db pid = none →
      create_cost_with_file db fs now pid tid cd amt cat v n file ck =
        (.error .relatedProjectNotFound, fs)) ∧
    (∀ p, getProject db pid = some p → getTask db tid = none →
      create_cost_with_file db fs now pid tid cd amt cat v n file ck =
        (.error .relatedTaskNotFound, fs)) := by
  refine ⟨?_, ?_, ?_, ?_, ?_, ?_⟩
  · intro h; unfold create_time_log; rw [h]
  · intro p hp ht; unfold create_time_log; rw [hp, ht]
  · intro h; unfold create_cost; rw [h]
  · intro p hp ht; unfold create_cost; rw [hp, ht]
  · intro h; unfold create_cost_with_file; rw [h]
  · intro p hp ht; unfold create_cost_with_file; rw [hp, ht]

/-- C6 witness: in the sample store, project 99 is missing (so the time log
referencing it is rejected with the project error even though its task 99
is missing too), and project 1 exists while task 99 is missing (so the
multipart cost creation is rejected with the task error). -/
theorem c6_witness :
    getProject exDb 99 = none ∧ getTask exDb 99 = none ∧
    getProject exDb 1 = some exP1 ∧
    create_time_log exDb 0
        { project_id := 99, task_id := 99, work_date := 0, hours := 1 } =
      .error .relatedProjectNotFound ∧
    create_cost_with_file exDb exFs 0 1 99 0 5 "divers" none none none true =
      (.error .relatedTaskNotFound, exFs) :=
  ⟨rfl, rfl, rfl,
    (c6_reference_check_order exDb exFs 0
        { project_id := 99, task_id := 99, work_date := 0, hours := 1 }
        { project_id := 99, task_id := 99, cost_date := 0, amount := 5,
          category := "divers" } 1 99 0 5 "divers" none none none true).1 rfl,
    (c6_reference_check_order exDb exFs 0
        { project_id := 99, task_id := 99, work_date := 0, hours := 1 }
        { project_id := 99, task_id := 99, cost_date := 0, amount := 5,
          category := "divers" } 1 99 0 5 "divers" none none none true).2.2.2.2.2
      exP1 rfl rfl⟩

/-- C7: with resolvable references, an uploaded file whose declared media
type is not exactly `application/pdf` makes `create_cost_with_file` fail
with `UnsupportedMediaType`; the attachment directory is returned
unchanged (no file written) and the error outcome carries no store (no row
inserted). -/
theorem c7_non_pdf_rejected (db : Store) (fs : Fs) (now : Int)
    (pid tid : Nat) (cd : Date) (amt : Rat) (cat : String)
    (v n : Option String) (f : UploadFile) (ck : Bool)
    (p : Project) (t : Task)
    (hp : getProject db pid = some p) (ht : getTask db tid = some t)
    (hct : f.content_type ≠ "application/pdf") :
    create_cost_with_file db fs now pid tid cd amt cat v n (some f) ck =
      (.error .unsupportedMediaType, fs) := by
  have hstep : attachStep fs pid tid now (some f) = .error .unsupportedMediaType := by
    show (if (f.content_type != "application/pdf") = true
        then (Except.error Err.unsupportedMediaType : Except Err (Option String × Fs))
        else .ok (some (attachmentName pid tid now),
          writeFile fs (attachmentName pid tid now))) = .error .unsupportedMediaType
    rw [if_pos (by simpa using hct)]
  unfold create_cost_with_file
  rw [hp, ht, hstep]

/-- C7 witness: a PNG upload against project 1 / task 1 is rejected with
415 and changes nothing. -/
theorem c7_witness :
    getProject exDb 1 = some exP1 ∧ getTask exDb 1 = some exT1 ∧
    exPng.content_type ≠ "application/pdf" ∧
    create_cost_with_file exDb exFs 0 1 1 0 5 "divers" none none
        (some exPng) true =
      (.error .unsupportedMediaType, exFs) :=
  ⟨rfl, rfl, by decide,
    c7_non_pdf_rejected exDb exFs 0 1 1 0 5 "divers" none none exPng true
      exP1 exT1 rfl rfl (by decide)⟩

/-- C8: the attachment file is written before the row insert is attempted:
whenever `create_cost_with_file` succeeds, any filename recorded on the
returned row is present in the returned directory; and when the commit
fails after a valid PDF upload, the written file persists as a tolerated
orphan while the error outcome carries no row. -/
theorem c8_write_before_insert (db : Store) (fs : Fs) (now : Int)
    (pid tid : Nat) (cd : Date) (amt : Rat) (cat : String)
    (v n : Option String) :
    (∀ (file : Option UploadFile) (ck : Bool) (db' : Store) (c : Cost) (fs' : Fs),
      create_cost_with_file db fs now pid tid cd amt cat v n file ck =
        (.ok (db', c), fs') →
      ∀ g, c.attachment_filename = some g → g ∈ fs'.files) ∧
    (∀ (f : UploadFile) (p : Project) (t : Task),
      getProject db pid = some p → getTask db tid = some t →
      f.content_type = "application/pdf" →
      create_cost_with_file db fs now pid tid cd amt cat v n (some f) false =
        (.error .storeIOError, writeFile fs (attachmentName pid tid now)) ∧
      attachmentName pid tid now ∈ (writeFile fs (attachmentName pid tid now)).files) := by
  constructor
  · intro file ck db' c fs' h g hg
    unfold create_cost_with_file at h
    cases hgp : getProject db pid with
    | none => rw [hgp] at h; simp at h
    | some p =>
      rw [hgp] at h
      cases hgt : getTask db tid with
      | none => rw [hgt] at h; simp at h
      | some t =>
        rw [hgt] at h
        cases hstep : attachStep fs pid tid now file with
        | error e => rw [hstep] at h; simp at h
        | ok r =>
          obtain ⟨att, fs1⟩ := r
          rw [hstep] at h
          rcases attachStep_ok hstep with ⟨hatt, hfs1⟩ | ⟨hatt, hfs1⟩
          · subst hatt; subst hfs1
            cases ck with
            | false => simp at h
            | true =>
              simp at h
              obtain ⟨⟨hdb, hc⟩, hfs⟩ := h
              rw [← hc] at hg
              simp at hg
          · subst hatt; subst hfs1
            cases ck with
            | false => simp at h
            | true =>
              simp at h
              obtain ⟨⟨hdb, hc⟩, hfs⟩ := h
              rw [← hc] at hg
              simp at hg
              subst hg
              rw [← hfs]
              exact mem_writeFile_self fs (attachmentName pid tid now)
  · intro f p t hp ht hct
    have hstep : attachStep fs pid tid now (some f) =
        .ok (some (attachmentName pid tid now),
          writeFile fs (attachmentName pid tid now)) := by
      show (if (f.content_type != "application/pdf") = true
          then (Except.error Err.unsupportedMediaType : Except Err (Option String × Fs))
          else .ok (some (attachmentName pid tid now),
            writeFile fs (attachmentName pid tid now))) =
        .ok (some (attachmentName pid tid now),
          writeFile fs (attachmentName pid tid now))
      rw [hct]
      simp
    refine ⟨?_, mem_writeFile_self fs (attachmentName pid tid now)⟩
    unfold create_cost_with_file
    rw [hp, ht, hstep]
    rfl

/-- C8 witness: a valid PDF upload against project 1 / task 1 whose commit
fails leaves `cost_1_1_7.pdf` in the directory and produces no row. -/
theorem c8_witness :
    getProject exDb 1 = some exP1 ∧ getTask exDb 1 = some exT1 ∧
    exPdf.content_type = "application/pdf" ∧
    (create_cost_with_file exDb exFs 7 1 1 0 42 "materiel" none none
        (some exPdf) false =
      (.error .storeIOError, writeFile exFs (attachmentName 1 1 7)) ∧
    attachmentName 1 1 7 ∈ (writeFile exFs (attachmentName 1 1 7)).files) :=
  ⟨rfl, rfl, rfl,
    (c8_write_before_insert exDb exFs 7 1 1 0 42 "materiel" none none).2
      exPdf exP1 exT1 rfl rfl rfl⟩

/-- A time-log payload pairing project 1 with task 10, which belongs to
project 2. -/
def exTlX : TimeLogBase :=
  { project_id := 1, task_id := 10, work_date := 0, hours := 2 }

/-- The time-log row `create_time_log` persists for `exTlX`. -/
def exTlXRow : TimeLog := { toTimeLogBase := exTlX, id := 2, created_at := 0 }

/-- The store after persisting `exTlXRow`. -/
def exDbTl : Store :=
  { exDb with timelogs := exDb.timelogs ++ [exTlXRow], nextTimeLogId := 3 }

/-- A cost payload pairing project 1 with task 10, which belongs to
project 2. -/
def exCX : CostBase :=
  { project_id := 1, task_id := 10, cost_date := 0, amount := 40,
    category := "divers" }

/-- The cost row `create_cost` persists for `exCX`. -/
def exCXRow : Cost := { toCostBase := exCX, id := 2, created_at := 0 }

/-- The store after persisting `exCXRow`. -/
def exDbC : Store :=
  { exDb with costs := exDb.costs ++ [exCXRow], nextCostId := 3 }

/-- C9: the task-to-project relationship is not validated: in the sample
ledger task 10 belongs to project 2, yet a time log and a cost naming
project 1 together with task 10 are accepted and persisted with the
mismatched pair. -/
theorem c9_mismatched_task_accepted :
    getProject exDb 1 = some exP1 ∧ getTask exDb 10 = some exT10 ∧
    exT10.project_id = 2 ∧
    create_time_log exDb 0 exTlX = .ok (exDbTl, exTlXRow) ∧
    exTlXRow.project_id = 1 ∧ exTlXRow.task_id = 10 ∧
    exTlXRow ∈ exDbTl.timelogs ∧
    create_cost exDb 0 exCX = .ok (exDbC, exCXRow) ∧
    exCXRow.project_id = 1 ∧ exCXRow.task_id = 10 ∧
    exCXRow ∈ exDbC.costs := by
  refine ⟨rfl, rfl, rfl, rfl, rfl, rfl, ?_, rfl, rfl, rfl, ?_⟩
  · simp [exDbTl]
  · simp [exDbC]

/-- C10: with resolvable references and no uploaded file, the multipart
cost creation performs no media-type check and writes no file: it
succeeds, returns the attachment directory unchanged, and appends a cost
row whose `attachment_filename` is `none`. -/
theorem c10_no_file_accepted (db : Store) (fs : Fs) (now : Int)
    (pid tid : Nat) (cd : Date) (amt : Rat) (cat : String)
    (v n : Option String) (p : Project) (t : Task)
    (hp : getProject db pid = some p) (ht : getTask db tid = some t) :
    ∃ db' c, create_cost_with_file db fs now pid tid cd amt cat v n none true =
        (.ok (db', c), fs) ∧
      c.attachment_filename = none ∧ db'.costs = db.costs ++ [c] := by
  unfold create_cost_with_file
  rw [hp, ht]
  have hstep : attachStep fs pid tid now none = .ok (none, fs) := rfl
  rw [hstep]
  exact ⟨_, _, rfl, rfl, rfl⟩

/-- C10 witness: creating a cost with no file against project 1 / task 1
succeeds with no attachment and an unchanged directory. -/
theorem c10_witness :
    getProject exDb 1 = some exP1 ∧ getTask exDb 1 = some exT1 ∧
    (∃ db' c, create_cost_with_file exDb exFs 0 1 1 0 5 "divers" none none
        none true =
        (.ok (db', c), exFs) ∧
      c.attachment_filename = none ∧ db'.costs = exDb.costs ++ [c]) :=
  ⟨rfl, rfl,
    c10_no_file_accepted exDb exFs 0 1 1 0 5 "divers" none none exP1 exT1
      rfl rfl⟩

end Chantier
